import Mathlib

/-!
Verification of the countdown-timer widget `src/components/Timer.tsx`
(repository notion-timer).

The component keeps its state in React hooks and refs:
  * `time : number`            — RemainingSeconds, the displayed value
  * `isRunning : boolean`      — RunState (true = Running)
  * `inputHours, inputMinutes` — the two validated text fields
  * `totalDurationRef`         — TotalDuration
  * `startTimeRef`             — StartTimestamp (milliseconds) or null
  * `pausedTimeRef`            — AccumulatedPause (seconds)

We embed it as a record `TimerState` plus pure transition functions, one
per code path: `updateTimer` (the animation-frame callback),
`workerOnMessage` (the background-worker tick handler), `runSyncEffect`
(the body of the `useEffect` keyed on `[isRunning, time]`),
`startPauseTimer` (the button handler followed by that effect),
`setTimer` (the Set/Reset button), `handleInputChange` (keystroke
validation), `formatTime` (display), and `loadFromQuery` (the URL-seed
effect).  Wall-clock instants (`Date.now()`) are integers in
milliseconds, passed explicitly as a `now` argument.

JavaScript peculiarities that the embedding reproduces:
  * `Math.floor((now - start) / 1000)` on integer timestamps is integer
    floor division, `Int.fdiv`.
  * the truthiness tests `if (startTimeRef.current)` /
    `if (!startTimeRef.current)` are false for both `null` and `0`
    (modelled by `truthyNumOpt` on `Option Int`).
  * `parseInt(s)` returns NaN when no leading digits are found; we model
    the number-or-NaN result as `Option Int` (`none` = NaN).  The model
    covers leading whitespace, an optional sign and a longest decimal
    digit prefix; the legacy `0x` hexadecimal prefix of JS `parseInt`
    is not modelled (no theorem below evaluates such a string).
  * `parseInt(s) || 0` maps NaN (and 0) to 0, i.e. `Option.getD _ 0`.
  * NaN propagates through `*` and `+` (`nanMul`, `nanAdd`).
-/

namespace NotionTimer

/-- Decimal digit characters, the character class `\d` = `[0-9]` of the
regular expression in `handleInputChange` (code points 48–57). -/
def isDigitChar (c : Char) : Bool :=
  48 ≤ c.toNat && c.toNat ≤ 57

/-- The whitespace characters stripped by JS `parseInt` (tab, LF, VT,
FF, CR, space; further Unicode space characters are omitted — no
theorem below evaluates a string containing them). -/
def jsWhitespaceChar (c : Char) : Bool :=
  c.toNat == 32 || c.toNat == 9 || c.toNat == 10 ||
  c.toNat == 13 || c.toNat == 11 || c.toNat == 12

/-- Value of a list of decimal digit characters, most significant
first. -/
def digitsVal (l : List Char) : Nat :=
  l.foldl (fun a c => 10 * a + (c.toNat - 48)) 0

/-- JS `parseInt(s)` (radix 10): skip leading whitespace, read an
optional sign, then the longest prefix of decimal digits; NaN (here
`none`) if that prefix is empty. -/
def jsParseInt (s : String) : Option Int :=
  match s.data.dropWhile jsWhitespaceChar with
  | [] => none
  | c :: rest =>
    let signAndDigits : Int × List Char :=
      if c = '-' then (-1, rest)
      else if c = '+' then (1, rest)
      else (1, c :: rest)
    let digits := signAndDigits.2.takeWhile isDigitChar
    if digits = [] then none
    else some (signAndDigits.1 * (digitsVal digits : Int))

/-- JS truthiness of a `number | null` value: `null` and `0` are falsy. -/
def truthyNumOpt : Option Int → Bool
  | none => false
  | some n => n != 0

/-- `Math.floor((now - start) / 1000)`: elapsed whole seconds between
two millisecond timestamps (floor division, as `Math.floor` of the real
quotient). -/
def elapsedSecs (now start : Int) : Int :=
  Int.fdiv (now - start) 1000

/-- The clamped wall-clock formula shared by `updateTimer` and the
worker handler:
`Math.max(totalDuration - (elapsedSinceStart + pausedTime), 0)`. -/
def computeRemaining (total paused now start : Int) : Int :=
  max (total - (elapsedSecs now start + paused)) 0

/-- The component state: React state hooks (`time`, `isRunning`,
`inputHours`, `inputMinutes`) and refs (`totalDuration`, `startTime`,
`pausedTime`). -/
structure TimerState where
  time : Int
  isRunning : Bool
  inputHours : String
  inputMinutes : String
  totalDuration : Int
  startTime : Option Int
  pausedTime : Int
deriving DecidableEq

/-- All hooks start at zero/empty/null at mount. -/
def initState : TimerState :=
  { time := 0, isRunning := false, inputHours := "", inputMinutes := "",
    totalDuration := 0, startTime := none, pausedTime := 0 }

/-- The animation-frame callback `updateTimer` (Timer.tsx lines 34–54):
guarded by `isRunning && startTimeRef.current`; recomputes the clamped
remaining time, publishes it with `setTime`, and on reaching ≤ 0 stops
the run (`setIsRunning(false)`) and clears the start timestamp.
(The `requestAnimationFrame` rescheduling decides only when the callback
runs next; it is represented by the caller choosing trigger instants.) -/
def updateTimer (now : Int) (s : TimerState) : TimerState :=
  match s.startTime with
  | some start =>
    if s.isRunning ∧ start ≠ 0 then
      let newRemainingTime := computeRemaining s.totalDuration s.pausedTime now start
      if newRemainingTime ≤ 0 then
        { s with time := newRemainingTime, isRunning := false, startTime := none }
      else
        { s with time := newRemainingTime }
    else s
  | none => s

/-- The worker's `onmessage` handler (Timer.tsx lines 97–108): guarded
only by `startTimeRef.current`; publishes the same clamped formula but
never stops the run. -/
def workerOnMessage (now : Int) (s : TimerState) : TimerState :=
  match s.startTime with
  | some start =>
    if start ≠ 0 then
      { s with time := computeRemaining s.totalDuration s.pausedTime now start }
    else s
  | none => s

/-- Body of the `useEffect` keyed on `[isRunning, time]` (Timer.tsx
lines 56–73): when running with no (truthy) start timestamp, record
`Date.now()` as the start and overwrite `totalDurationRef` with the
current `time`; when not running with a truthy start timestamp, add the
elapsed whole seconds to `pausedTimeRef` and clear the start
timestamp. -/
def runSyncEffect (now : Int) (s : TimerState) : TimerState :=
  if s.isRunning then
    if truthyNumOpt s.startTime then s
    else { s with startTime := some now, totalDuration := s.time }
  else
    match s.startTime with
    | some start =>
      if start ≠ 0 then
        { s with pausedTime := s.pausedTime + elapsedSecs now start,
                 startTime := none }
      else s
    | none => s

/-- The Start/Pause button: `setIsRunning(!isRunning)` followed by the
re-run of the `[isRunning, time]` effect at the same instant. -/
def startPauseTimer (now : Int) (s : TimerState) : TimerState :=
  runSyncEffect now { s with isRunning := !s.isRunning }

/-- The Set/Reset button `setTimer` (Timer.tsx lines 122–135):
`parseInt(input) || 0` for each field (NaN ↦ 0), duration
`hours*3600 + minutes*60`, written to both `time` and
`totalDurationRef`; clears both fields, stops the run, clears the start
timestamp and the accumulated pause. -/
def setTimer (s : TimerState) : TimerState :=
  let hours := (jsParseInt s.inputHours).getD 0
  let minutes := (jsParseInt s.inputMinutes).getD 0
  let totalSeconds := hours * 3600 + minutes * 60
  { s with time := totalSeconds, totalDuration := totalSeconds,
           inputHours := "", inputMinutes := "",
           isRunning := false, startTime := none, pausedTime := 0 }

/-- The regular-expression test `/^\d+$/.test(value)`: non-empty and
all decimal digits. -/
def regexTestDigits (value : String) : Bool :=
  !value.isEmpty && value.data.all isDigitChar

/-- JS `parseInt(value) >= 0`: false when the parse result is NaN. -/
def jsGeZero : Option Int → Bool
  | none => false
  | some n => 0 ≤ n

/-- The acceptance condition of `handleInputChange` (Timer.tsx lines
146–154): `value === "" || (/^\d+$/.test(value) && parseInt(value) >= 0)`. -/
def acceptsInput (value : String) : Bool :=
  value == "" || (regexTestDigits value && jsGeZero (jsParseInt value))

/-- `handleInputChange`: call the setter (store the new value) exactly
when accepted; otherwise the stored value is left unchanged. -/
def handleInputChange (value stored : String) : String :=
  if acceptsInput value then value else stored

/-- JS `String.prototype.padStart(2, "0")`. -/
def padStart2 (s : String) : String :=
  if 2 ≤ s.length then s
  else String.mk (List.replicate (2 - s.length) '0') ++ s

/-- JS truthiness of a string: the empty string is falsy. -/
def truthyStr (s : String) : Bool := !s.isEmpty

/-- The primary button's label (Timer.tsx line 182):
`inputHours || inputMinutes ? "Set" : "Reset"`. -/
def primaryButtonLabel (s : TimerState) : String :=
  if truthyStr s.inputHours || truthyStr s.inputMinutes then "Set" else "Reset"

/-- Whether the secondary (Start/Pause) button is rendered (Timer.tsx
line 184): `time !== 0`. -/
def secondaryButtonRendered (s : TimerState) : Bool :=
  s.time != 0

/-- The secondary button's label (Timer.tsx line 189):
`isRunning ? "Pause" : "Start"`. -/
def secondaryButtonLabel (s : TimerState) : String :=
  if s.isRunning then "Pause" else "Start"

/-- JS `%`, the truncated remainder (sign of the dividend).  For the
non-negative values reached by `formatTime` it agrees with `Int.emod`. -/
def jsRem (a b : Int) : Int :=
  if a < 0 then -((-a) % b) else a % b

/-- `formatTime` (Timer.tsx lines 137–144): `HH:MM:SS` with
`HH = Math.floor(time/3600)`, `MM = Math.floor((time%3600)/60)`,
`SS = time%60`, each rendered with `toString().padStart(2, "0")`. -/
def formatTime (time : Int) : String :=
  let hours := Int.fdiv time 3600
  let minutes := Int.fdiv (jsRem time 3600) 60
  let seconds := jsRem time 60
  padStart2 (toString hours) ++ ":" ++ padStart2 (toString minutes) ++ ":"
    ++ padStart2 (toString seconds)

/-- The regular expression `^\d{2}:\d{2}:\d{2}$` from the spec, as a
decidable predicate on the character list of a string: exactly eight
characters, digits in positions 0,1,3,4,6,7 and colons in positions
2 and 5. -/
def matchesHHMMSS (s : String) : Bool :=
  match s.data with
  | [a, b, c, d, e, f, g, h] =>
    isDigitChar a && isDigitChar b && (c == ':') && isDigitChar d &&
    isDigitChar e && (f == ':') && isDigitChar g && isDigitChar h
  | _ => false

/-- Decoding of an `HH:MM:SS` string back to seconds via
`HH*3600 + MM*60 + SS` (the spec's round-trip check); `none` when the
string does not have the shape. -/
def decodeHMS (s : String) : Option Nat :=
  match s.data with
  | [a, b, c, d, e, f, g, h] =>
    if isDigitChar a && isDigitChar b && (c == ':') && isDigitChar d &&
       isDigitChar e && (f == ':') && isDigitChar g && isDigitChar h then
      some (((a.toNat - 48) * 10 + (b.toNat - 48)) * 3600 +
            ((d.toNat - 48) * 10 + (e.toNat - 48)) * 60 +
            ((g.toNat - 48) * 10 + (h.toNat - 48)))
    else none
  | _ => none

/-- A value the validated input fields can hold: empty, or a non-empty
string of decimal digits (exactly what `handleInputChange` lets
through). -/
def validField (v : String) : Prop :=
  v = "" ∨ (v ≠ "" ∧ v.data.all isDigitChar = true)

/-- The value the Set button reads from a validated field, in the
spec's words: a missing (empty) field counts as 0, a digit string as
its decimal value. -/
def fieldVal (v : String) : Int :=
  if v = "" then 0 else (digitsVal v.data : Int)

/-- A recompute trigger: an animation-frame callback or a worker tick,
at a given wall-clock instant. -/
inductive Trigger where
  | frame (now : Int) : Trigger
  | tick (now : Int) : Trigger
deriving DecidableEq

/-- Run the code path of one trigger. -/
def applyTrigger : Trigger → TimerState → TimerState
  | .frame now, s => updateTimer now s
  | .tick now, s => workerOnMessage now s

/-- The instant at which a trigger fires. -/
def triggerTime : Trigger → Int
  | .frame now => now
  | .tick now => now

/-- Run a sequence of triggers in order. -/
def applyTriggers (l : List Trigger) (s : TimerState) : TimerState :=
  l.foldl (fun s t => applyTrigger t s) s

/-- The user-facing and scheduler-facing operations of the widget:
commit (Set/Reset), the Start/Pause toggle, the two trigger kinds, pure
passage of wall-clock time (which touches no state), and a keystroke in
either field. -/
inductive Op where
  | commit : Op
  | toggle (now : Int) : Op
  | frame (now : Int) : Op
  | tick (now : Int) : Op
  | elapse : Op
  | typeHours (value : String) : Op
  | typeMinutes (value : String) : Op

/-- Apply one operation to the component state. -/
def applyOp : Op → TimerState → TimerState
  | .commit, s => setTimer s
  | .toggle now, s => startPauseTimer now s
  | .frame now, s => updateTimer now s
  | .tick now, s => workerOnMessage now s
  | .elapse, s => s
  | .typeHours v, s => { s with inputHours := handleInputChange v s.inputHours }
  | .typeMinutes v, s => { s with inputMinutes := handleInputChange v s.inputMinutes }

/-- The reachable-state invariant for C4: the displayed value is
non-negative and both fields hold validated text. -/
def Inv (s : TimerState) : Prop :=
  0 ≤ s.time ∧ validField s.inputHours ∧ validField s.inputMinutes

/-- The state right after a start of a countdown of duration `D` at
instant `t0`: running, start timestamp recorded, `totalDurationRef`
holding `D`, no accumulated pause. -/
def FreshRun (D t0 : Int) (s : TimerState) : Prop :=
  s.isRunning = true ∧ s.startTime = some t0 ∧
  s.totalDuration = D ∧ s.pausedTime = 0

/-- Invariant for the 65-second scenario of C1: either the run of
duration `D` started at `t0` is still live (with its refs untouched),
or an intermediate recompute already hit zero — which forces `D ≤ 65`
when all trigger instants stay within 65 s of `t0`. -/
def RunOrDone (D t0 : Int) (s : TimerState) : Prop :=
  FreshRun D t0 s ∨
  (s.isRunning = false ∧ s.startTime = none ∧ s.time = 0 ∧ D ≤ 65)

/-!  ## The URL-parameter seeding effect

`router.query` hands the effect two optional strings.  The effect
multiplies and adds raw `parseInt` results, so a NaN (modelled `none`)
propagates into both `time` and `totalDurationRef`.  Since the rest of
the component never produces NaN, we give this effect its own small
state of JS numbers (`Option Int`, `none` = NaN). -/

/-- The two cells the query effect writes, as JS numbers. -/
structure QuerySeedState where
  time : Option Int
  totalDuration : Option Int
deriving DecidableEq

/-- JS truthiness of `string | undefined`: `undefined` and `""` are
falsy. -/
def truthyStrOpt : Option String → Bool
  | none => false
  | some s => s ≠ ""

/-- `(param as string) || "0"`: an absent or empty parameter falls back
to the string `"0"`. -/
def queryParamOrZero : Option String → String
  | none => "0"
  | some s => if s = "" then "0" else s

/-- Multiplication of a JS number by a constant: NaN propagates. -/
def nanMul (a : Option Int) (k : Int) : Option Int :=
  a.map (· * k)

/-- Addition of JS numbers: NaN propagates. -/
def nanAdd (a b : Option Int) : Option Int :=
  match a, b with
  | some x, some y => some (x + y)
  | _, _ => none

/-- The `useEffect` keyed on `router.query` (Timer.tsx lines 18–28):
when at least one of the two parameters is truthy, parse both (with the
`|| "0"` string fallback), compute `hours*3600 + minutes*60` in JS
arithmetic and write it to both `time` and `totalDurationRef`;
otherwise leave the state alone. -/
def loadFromQuery (hoursParam minutesParam : Option String)
    (s : QuerySeedState) : QuerySeedState :=
  if truthyStrOpt hoursParam || truthyStrOpt minutesParam then
    let hours := jsParseInt (queryParamOrZero hoursParam)
    let minutes := jsParseInt (queryParamOrZero minutesParam)
    let totalSeconds := nanAdd (nanMul hours 3600) (nanMul minutes 60)
    { time := totalSeconds, totalDuration := totalSeconds }
  else s

lemma isDigitChar_props (c : Char) (h : isDigitChar c = true) :
    jsWhitespaceChar c = false ∧ c ≠ '-' ∧ c ≠ '+' := by
  simp only [isDigitChar, Bool.and_eq_true, decide_eq_true_eq] at h
  refine ⟨?_, ?_, ?_⟩
  · simp only [jsWhitespaceChar, Bool.or_eq_false_iff, beq_eq_false_iff_ne, ne_eq]
    omega
  · rintro rfl; revert h; decide
  · rintro rfl; revert h; decide

lemma takeWhile_all_digits {l : List Char} (h : l.all isDigitChar = true) :
    l.takeWhile isDigitChar = l := by
  induction l with
  | nil => rfl
  | cons c t ih => simp_all [List.takeWhile_cons]

lemma jsParseInt_digits (s : String) (h1 : s.data ≠ []) (h2 : s.data.all isDigitChar = true) :
    jsParseInt s = some ((digitsVal s.data : Int)) := by
  obtain ⟨c, t, hct⟩ : ∃ c t, s.data = c :: t := by
    cases hd : s.data with
    | nil => exact absurd hd h1
    | cons c t => exact ⟨c, t, rfl⟩
  have h2' : (c :: t).all isDigitChar = true := hct ▸ h2
  have hc : isDigitChar c = true := by
    rw [List.all_cons, Bool.and_eq_true] at h2'; exact h2'.1
  obtain ⟨hws, hminus, hplus⟩ := isDigitChar_props c hc
  unfold jsParseInt
  rw [hct]
  simp only [List.dropWhile_cons, hws, Bool.false_eq_true, if_false]
  simp only [hminus, hplus, if_false, takeWhile_all_digits h2']
  simp [List.cons_ne_nil]



lemma string_data_ne_nil {v : String} (h : v ≠ "") : v.data ≠ [] := by
  intro hd
  exact h (by cases v with | mk l => simp_all)

lemma not_isEmpty_of_ne {v : String} (h : v ≠ "") : (!v.isEmpty) = true := by
  have hf : v.isEmpty = false := by
    cases hb : v.isEmpty
    · rfl
    · exact absurd (String.isEmpty_iff v |>.mp hb) h
  simp [hf]

lemma ne_of_not_isEmpty {v : String} (h : (!v.isEmpty) = true) : v ≠ "" := by
  intro he
  rw [he] at h
  exact absurd h (by decide)

lemma parse_validField (v : String) (h : validField v) :
    (jsParseInt v).getD 0 = fieldVal v := by
  rcases h with rfl | ⟨hne, hdig⟩
  · rfl
  · rw [jsParseInt_digits v (string_data_ne_nil hne) hdig, fieldVal, if_neg hne]
    rfl

lemma fieldVal_nonneg (v : String) : 0 ≤ fieldVal v := by
  unfold fieldVal
  split
  · exact le_refl 0
  · exact Int.ofNat_nonneg _

lemma acceptsInput_iff (value : String) :
    acceptsInput value = true ↔ validField value := by
  unfold acceptsInput validField regexTestDigits
  constructor
  · intro h
    rcases Bool.or_eq_true_iff.mp h with h1 | h2
    · exact Or.inl (by simpa using h1)
    · obtain ⟨h3, _⟩ := Bool.and_eq_true_iff.mp h2
      obtain ⟨h4, h5⟩ := Bool.and_eq_true_iff.mp h3
      exact Or.inr ⟨ne_of_not_isEmpty h4, by simpa using h5⟩
  · intro h
    rcases h with rfl | ⟨hne, hdig⟩
    · rfl
    · apply Bool.or_eq_true_iff.mpr
      refine Or.inr (Bool.and_eq_true_iff.mpr
        ⟨Bool.and_eq_true_iff.mpr ⟨not_isEmpty_of_ne hne, by simpa using hdig⟩, ?_⟩)
      rw [jsParseInt_digits value (string_data_ne_nil hne) hdig]
      simp [jsGeZero]

lemma handleInputChange_validField {stored : String} (value : String)
    (h : validField stored) : validField (handleInputChange value stored) := by
  unfold handleInputChange
  split
  · next ha => exact (acceptsInput_iff value).mp ha
  · exact h



/-- Claim C8: a keystroke value delivered to an input field replaces the
stored field value exactly when it is the empty string or consists solely
of decimal digits; every other value (letters, negative signs, mixed
text) leaves the stored value unchanged. -/
theorem C8_keystroke_validation (value stored : String) :
    ((value = "" ∨ (value ≠ "" ∧ value.data.all isDigitChar = true)) →
      handleInputChange value stored = value) ∧
    (¬(value = "" ∨ (value ≠ "" ∧ value.data.all isDigitChar = true)) →
      handleInputChange value stored = stored) := by
  constructor
  · intro h
    unfold handleInputChange
    rw [if_pos ((acceptsInput_iff value).mpr h)]
  · intro h
    unfold handleInputChange
    rw [if_neg (fun ha => h ((acceptsInput_iff value).mp ha))]

/-- Witness for C8 at concrete keystrokes: digits and the empty string
are stored, a negative sign and a letter are rejected. -/
theorem C8_keystroke_validation_witness :
    handleInputChange "12" "3" = "12" ∧ handleInputChange "" "3" = "" ∧
    handleInputChange "-5" "3" = "3" ∧ handleInputChange "a7" "3" = "3" := by
  refine ⟨(C8_keystroke_validation "12" "3").1 (by decide),
          (C8_keystroke_validation "" "3").1 (Or.inl rfl),
          (C8_keystroke_validation "-5" "3").2 (by decide),
          (C8_keystroke_validation "a7" "3").2 (by decide)⟩

/-- Claim C9: the primary button reads "Set" exactly when at least one
input field is non-empty and "Reset" otherwise; the secondary button is
rendered exactly when RemainingSeconds is not 0, labelled "Pause" while
Running and "Start" otherwise. -/
theorem C9_button_labels (s : TimerState) :
    (primaryButtonLabel s = "Set" ↔ (s.inputHours ≠ "" ∨ s.inputMinutes ≠ "")) ∧
    (primaryButtonLabel s = "Reset" ↔ (s.inputHours = "" ∧ s.inputMinutes = "")) ∧
    (secondaryButtonRendered s = true ↔ s.time ≠ 0) ∧
    (s.isRunning = true → secondaryButtonLabel s = "Pause") ∧
    (s.isRunning = false → secondaryButtonLabel s = "Start") := by
  unfold primaryButtonLabel secondaryButtonRendered secondaryButtonLabel
  refine ⟨?_, ?_, ?_, ?_, ?_⟩
  · constructor
    · intro h
      by_contra hn
      push_neg at hn
      obtain ⟨h1, h2⟩ := hn
      rw [h1, h2] at h
      exact absurd h (by decide)
    · intro h
      rw [if_pos]
      apply Bool.or_eq_true_iff.mpr
      rcases h with h | h
      · exact Or.inl (not_isEmpty_of_ne h)
      · exact Or.inr (not_isEmpty_of_ne h)
  · constructor
    · intro h
      by_contra hn
      rw [not_and_or] at hn
      have : (truthyStr s.inputHours || truthyStr s.inputMinutes) = true := by
        apply Bool.or_eq_true_iff.mpr
        rcases hn with h1 | h1
        · exact Or.inl (not_isEmpty_of_ne h1)
        · exact Or.inr (not_isEmpty_of_ne h1)
      rw [if_pos this] at h
      exact absurd h (by decide)
    · rintro ⟨h1, h2⟩
      rw [h1, h2]
      decide
  · simp
  · intro h; rw [h]; rfl
  · intro h; rw [h]; rfl

/-- Witness for C9 at concrete states. -/
theorem C9_button_labels_witness :
    primaryButtonLabel { initState with inputHours := "1" } = "Set" ∧
    primaryButtonLabel initState = "Reset" ∧
    secondaryButtonRendered { initState with time := 90 } = true ∧
    secondaryButtonLabel { initState with time := 90, isRunning := true } = "Pause" ∧
    secondaryButtonLabel { initState with time := 90 } = "Start" := by
  refine ⟨(C9_button_labels _).1.mpr (Or.inl (by decide)),
          (C9_button_labels _).2.1.mpr ⟨rfl, rfl⟩,
          (C9_button_labels _).2.2.1.mpr (by decide),
          (C9_button_labels _).2.2.2.1 rfl,
          (C9_button_labels _).2.2.2.2 rfl⟩

/-- Claim C10: given the same TotalDuration, StartTimestamp,
AccumulatedPause and current timestamp, the animation-frame recompute and
the worker-tick recompute publish the same RemainingSeconds, computed by
the identical clamped wall-clock formula `computeRemaining`. -/
theorem C10_frame_worker_equivalence (s : TimerState) (now start : Int)
    (hrun : s.isRunning = true) (hstart : s.startTime = some start)
    (h0 : start ≠ 0) :
    (updateTimer now s).time = (workerOnMessage now s).time ∧
    (updateTimer now s).time
      = computeRemaining s.totalDuration s.pausedTime now start := by
  unfold updateTimer workerOnMessage
  rw [hstart]
  simp only [hrun, h0, true_and, ne_eq, not_false_eq_true, if_pos]
  constructor
  · split <;> rfl
  · split <;> rfl

/-- Witness for C10 at a concrete running state and instant. -/
theorem C10_frame_worker_equivalence_witness :
    (updateTimer 66000
      { initState with time := 100, isRunning := true,
                       totalDuration := 100, startTime := some 1000 }).time = 35 := by
  have h := C10_frame_worker_equivalence
    { initState with time := 100, isRunning := true,
                     totalDuration := 100, startTime := some 1000 }
    66000 1000 rfl rfl (by decide)
  rw [h.2]
  decide



lemma computeRemaining_nonneg (total paused now start : Int) :
    0 ≤ computeRemaining total paused now start :=
  le_max_right _ _

/-- Claim C6: the commit operation parses each stored field (missing
text ↦ 0, digit strings to their decimal value), sets both
RemainingSeconds and TotalDuration to `hours*3600 + minutes*60`, clears
AccumulatedPause, forces the not-running state with the start timestamp
cleared, and empties both input fields.  The hypotheses say the stored
fields hold validated text — the only values `handleInputChange` ever
stores (see C4's invariant). -/
theorem C6_commit_resets (s : TimerState)
    (hh : validField s.inputHours) (hm : validField s.inputMinutes) :
    (setTimer s).time = fieldVal s.inputHours * 3600 + fieldVal s.inputMinutes * 60 ∧
    (setTimer s).totalDuration = (setTimer s).time ∧
    (setTimer s).pausedTime = 0 ∧
    (setTimer s).isRunning = false ∧
    (setTimer s).startTime = none ∧
    (setTimer s).inputHours = "" ∧
    (setTimer s).inputMinutes = "" := by
  unfold setTimer
  refine ⟨?_, rfl, rfl, rfl, rfl, rfl, rfl⟩
  simp only [parse_validField _ hh, parse_validField _ hm]

/-- Witness for C6: committing hours="1", minutes="30" yields 5400
seconds, displayed as "01:30:00". -/
theorem C6_commit_resets_witness :
    (setTimer { initState with inputHours := "1", inputMinutes := "30" }).time = 5400 ∧
    formatTime (setTimer { initState with inputHours := "1", inputMinutes := "30" }).time
      = "01:30:00" := by
  have h := C6_commit_resets { initState with inputHours := "1", inputMinutes := "30" }
    (by right; exact ⟨by decide, by decide⟩) (by right; exact ⟨by decide, by decide⟩)
  have ht : (setTimer { initState with inputHours := "1", inputMinutes := "30" }).time = 5400 := by
    rw [h.1]; decide
  exact ⟨ht, by rw [ht]; decide⟩

/-- Claim C5: when a recompute while Running yields remaining ≤ 0, the
engine stops (Running becomes false), clears StartTimestamp, publishes 0,
and afterwards neither trigger kind nor the sync effect changes the state
again (until a new commit or start). -/
theorem C5_auto_stop (s : TimerState) (now now2 start : Int)
    (hrun : s.isRunning = true) (hstart : s.startTime = some start) (h0 : start ≠ 0)
    (hzero : computeRemaining s.totalDuration s.pausedTime now start ≤ 0) :
    (updateTimer now s).isRunning = false ∧
    (updateTimer now s).startTime = none ∧
    (updateTimer now s).time = 0 ∧
    updateTimer now2 (updateTimer now s) = updateTimer now s ∧
    workerOnMessage now2 (updateTimer now s) = updateTimer now s ∧
    runSyncEffect now2 (updateTimer now s) = updateTimer now s := by
  have hz : computeRemaining s.totalDuration s.pausedTime now start = 0 :=
    le_antisymm hzero (computeRemaining_nonneg _ _ _ _)
  have hupd : updateTimer now s
      = { s with time := 0, isRunning := false, startTime := none } := by
    unfold updateTimer
    rw [hstart]
    simp only [hrun, h0, ne_eq, not_false_eq_true, and_self, if_pos, hz]
    rw [if_pos (le_refl 0)]
  rw [hupd]
  refine ⟨rfl, rfl, rfl, ?_, ?_, ?_⟩
  · unfold updateTimer; rfl
  · unfold workerOnMessage; rfl
  · unfold runSyncEffect; rfl

/-- Witness for C5: a 100-second run polled 199 s after start stops and
stays stopped. -/
theorem C5_auto_stop_witness :
    (updateTimer 200000
      { initState with time := 100, isRunning := true,
                       totalDuration := 100, startTime := some 1000 }).isRunning = false ∧
    updateTimer 300000 (updateTimer 200000
      { initState with time := 100, isRunning := true,
                       totalDuration := 100, startTime := some 1000 })
      = updateTimer 200000
      { initState with time := 100, isRunning := true,
                       totalDuration := 100, startTime := some 1000 } := by
  have h := C5_auto_stop
    { initState with time := 100, isRunning := true,
                     totalDuration := 100, startTime := some 1000 }
    200000 300000 1000 rfl rfl (by decide) (by decide)
  exact ⟨h.1, h.2.2.2.1⟩



lemma updateTimer_time_nonneg (now : Int) (s : TimerState) (h : 0 ≤ s.time) :
    0 ≤ (updateTimer now s).time := by
  unfold updateTimer
  split
  · split
    · dsimp only
      split
      · exact computeRemaining_nonneg _ _ _ _
      · exact computeRemaining_nonneg _ _ _ _
    · exact h
  · exact h

lemma updateTimer_inputs (now : Int) (s : TimerState) :
    (updateTimer now s).inputHours = s.inputHours ∧
    (updateTimer now s).inputMinutes = s.inputMinutes := by
  unfold updateTimer
  split
  · split
    · dsimp only
      split <;> exact ⟨rfl, rfl⟩
    · exact ⟨rfl, rfl⟩
  · exact ⟨rfl, rfl⟩

lemma workerOnMessage_fields (now : Int) (s : TimerState) :
    (workerOnMessage now s).inputHours = s.inputHours ∧
    (workerOnMessage now s).inputMinutes = s.inputMinutes := by
  unfold workerOnMessage
  split
  · split <;> exact ⟨rfl, rfl⟩
  · exact ⟨rfl, rfl⟩

lemma workerOnMessage_time_nonneg (now : Int) (s : TimerState) (h : 0 ≤ s.time) :
    0 ≤ (workerOnMessage now s).time := by
  unfold workerOnMessage
  split
  · split
    · exact computeRemaining_nonneg _ _ _ _
    · exact h
  · exact h

lemma runSyncEffect_fields (now : Int) (s : TimerState) :
    (runSyncEffect now s).time = s.time ∧
    (runSyncEffect now s).inputHours = s.inputHours ∧
    (runSyncEffect now s).inputMinutes = s.inputMinutes := by
  unfold runSyncEffect
  split
  · split <;> exact ⟨rfl, rfl, rfl⟩
  · split
    · split <;> exact ⟨rfl, rfl, rfl⟩
    · exact ⟨rfl, rfl, rfl⟩

lemma Inv_step (op : Op) (s : TimerState) (h : Inv s) : Inv (applyOp op s) := by
  obtain ⟨ht, hh, hm⟩ := h
  cases op with
  | commit =>
    refine ⟨?_, Or.inl rfl, Or.inl rfl⟩
    show 0 ≤ (setTimer s).time
    rw [(C6_commit_resets s hh hm).1]
    have h1 := fieldVal_nonneg s.inputHours
    have h2 := fieldVal_nonneg s.inputMinutes
    positivity
  | toggle now =>
    show Inv (runSyncEffect now { s with isRunning := !s.isRunning })
    obtain ⟨e1, e2, e3⟩ := runSyncEffect_fields now { s with isRunning := !s.isRunning }
    refine ⟨?_, ?_, ?_⟩
    · rw [e1]; exact ht
    · rw [e2]; exact hh
    · rw [e3]; exact hm
  | frame now =>
    show Inv (updateTimer now s)
    obtain ⟨e2, e3⟩ := updateTimer_inputs now s
    refine ⟨updateTimer_time_nonneg now s ht, ?_, ?_⟩
    · rw [e2]; exact hh
    · rw [e3]; exact hm
  | tick now =>
    show Inv (workerOnMessage now s)
    obtain ⟨e2, e3⟩ := workerOnMessage_fields now s
    refine ⟨workerOnMessage_time_nonneg now s ht, ?_, ?_⟩
    · rw [e2]; exact hh
    · rw [e3]; exact hm
  | elapse => exact ⟨ht, hh, hm⟩
  | typeHours v => exact ⟨ht, handleInputChange_validField v hh, hm⟩
  | typeMinutes v => exact ⟨ht, hh, handleInputChange_validField v hm⟩

/-- Claim C4: RemainingSeconds is never negative in any state reachable
by commit, start/pause, elapse, trigger-recompute and keystroke
operations: the invariant (non-negative `time`, validated fields) holds
initially and is preserved by every operation, hence by every
sequence. -/
theorem C4_remaining_nonneg :
    Inv initState ∧
    (∀ (op : Op) (s : TimerState), Inv s → Inv (applyOp op s) ∧ 0 ≤ (applyOp op s).time) ∧
    (∀ (ops : List Op) (s : TimerState), Inv s →
      0 ≤ (ops.foldl (fun s op => applyOp op s) s).time) := by
  refine ⟨⟨le_refl 0, Or.inl rfl, Or.inl rfl⟩, ?_, ?_⟩
  · intro op s h
    have h' := Inv_step op s h
    exact ⟨h', h'.1⟩
  · intro ops
    induction ops with
    | nil => intro s h; exact h.1
    | cons op t ih => intro s h; exact ih _ (Inv_step op s h)

/-- Witness for C4 along a concrete operation sequence. -/
theorem C4_remaining_nonneg_witness :
    0 ≤ (applyOp (Op.frame 99000)
          (applyOp (Op.toggle 1000)
            (applyOp Op.commit
              (applyOp (Op.typeMinutes "1") initState)))).time := by
  have h0 := C4_remaining_nonneg.1
  have h1 := (C4_remaining_nonneg.2.1 (Op.typeMinutes "1") initState h0).1
  have h2 := (C4_remaining_nonneg.2.1 Op.commit _ h1).1
  have h3 := (C4_remaining_nonneg.2.1 (Op.toggle 1000) _ h2).1
  exact (C4_remaining_nonneg.2.1 (Op.frame 99000) _ h3).2



lemma trigger_publishes (s : TimerState) (now start : Int)
    (hrun : s.isRunning = true) (hstart : s.startTime = some start) (h0 : start ≠ 0) :
    (updateTimer now s).time = computeRemaining s.totalDuration s.pausedTime now start ∧
    (workerOnMessage now s).time = computeRemaining s.totalDuration s.pausedTime now start := by
  unfold updateTimer workerOnMessage
  rw [hstart]
  simp only [hrun, h0, ne_eq, not_false_eq_true, and_self, if_pos]
  constructor
  · dsimp only
    split <;> rfl
  · trivial

lemma elapsedSecs_bounds {t0 now : Int} (h1 : t0 ≤ now) (h2 : now ≤ t0 + 65000) :
    0 ≤ elapsedSecs now t0 ∧ elapsedSecs now t0 ≤ 65 := by
  unfold elapsedSecs
  rw [Int.fdiv_eq_ediv _ (by norm_num)]
  omega

lemma elapsedSecs_at_65 (t0 : Int) : elapsedSecs (t0 + 65000) t0 = 65 := by
  unfold elapsedSecs
  rw [Int.fdiv_eq_ediv _ (by norm_num)]
  omega

lemma trigger_step {D t0 : Int} (h0 : 0 < t0) (tr : Trigger) (s : TimerState)
    (hlo : t0 ≤ triggerTime tr) (hhi : triggerTime tr ≤ t0 + 65000)
    (hs : RunOrDone D t0 s) : RunOrDone D t0 (applyTrigger tr s) := by
  rcases hs with ⟨hr, hst, htot, hp⟩ | ⟨hr, hst, htime, hD⟩
  · cases tr with
    | frame now =>
      simp only [triggerTime] at hlo hhi
      show RunOrDone D t0 (updateTimer now s)
      unfold updateTimer
      rw [hst]
      dsimp only
      rw [if_pos (⟨hr, by omega⟩ : s.isRunning = true ∧ t0 ≠ 0)]
      split
      · next hle =>
        right
        have hnn := computeRemaining_nonneg s.totalDuration s.pausedTime now t0
        refine ⟨rfl, rfl, le_antisymm hle hnn, ?_⟩
        have hb := elapsedSecs_bounds hlo hhi
        have hx : s.totalDuration - (elapsedSecs now t0 + s.pausedTime)
            ≤ computeRemaining s.totalDuration s.pausedTime now t0 :=
          le_max_left _ _
        omega
      · exact Or.inl ⟨hr, rfl, htot, hp⟩
    | tick now =>
      show RunOrDone D t0 (workerOnMessage now s)
      unfold workerOnMessage
      rw [hst]
      dsimp only
      rw [if_pos (by omega : t0 ≠ 0)]
      exact Or.inl ⟨hr, rfl, htot, hp⟩
  · cases tr with
    | frame now =>
      show RunOrDone D t0 (updateTimer now s)
      unfold updateTimer
      rw [hst]
      exact Or.inr ⟨hr, hst, htime, hD⟩
    | tick now =>
      show RunOrDone D t0 (workerOnMessage now s)
      unfold workerOnMessage
      rw [hst]
      exact Or.inr ⟨hr, hst, htime, hD⟩

lemma triggers_inv {D t0 : Int} (h0 : 0 < t0) (l : List Trigger)
    (hb : ∀ x ∈ l, t0 ≤ triggerTime x ∧ triggerTime x ≤ t0 + 65000)
    (s : TimerState) (hs : RunOrDone D t0 s) :
    RunOrDone D t0 (applyTriggers l s) := by
  induction l generalizing s with
  | nil => exact hs
  | cons tr rest ih =>
    have h1 := hb tr (List.mem_cons_self tr rest)
    exact ih (fun x hx => hb x (List.mem_cons_of_mem tr hx)) _
      (trigger_step h0 tr s h1.1 h1.2 hs)

lemma final_trigger {D t0 : Int} (h0 : 0 < t0) (tr : Trigger) (s : TimerState)
    (htr : triggerTime tr = t0 + 65000) (hs : RunOrDone D t0 s) :
    (applyTrigger tr s).time = max (D - 65) 0 := by
  rcases hs with ⟨hr, hst, htot, hp⟩ | ⟨hr, hst, htime, hD⟩
  · cases tr with
    | frame now =>
      simp only [triggerTime] at htr
      subst htr
      show (updateTimer (t0 + 65000) s).time = max (D - 65) 0
      rw [(trigger_publishes s _ t0 hr hst (by omega)).1]
      unfold computeRemaining
      rw [htot, hp, elapsedSecs_at_65, add_zero]
    | tick now =>
      simp only [triggerTime] at htr
      subst htr
      show (workerOnMessage (t0 + 65000) s).time = max (D - 65) 0
      rw [(trigger_publishes s _ t0 hr hst (by omega)).2]
      unfold computeRemaining
      rw [htot, hp, elapsedSecs_at_65, add_zero]
  · have hkeep : (applyTrigger tr s).time = s.time := by
      cases tr with
      | frame now =>
        show (updateTimer now s).time = s.time
        unfold updateTimer
        rw [hst]
      | tick now =>
        show (workerOnMessage now s).time = s.time
        unfold workerOnMessage
        rw [hst]
    rw [hkeep, htime, max_eq_right (by omega)]

/-- Claim C1: while Running (with a recorded start), every trigger of
either kind publishes
`max(TotalDuration - (floor((now - StartTimestamp)/1000) + AccumulatedPause), 0)`;
a Start from an idle state with remaining `D` produces exactly the fresh
run state; and from a fresh start of duration `D`, any number of triggers
within the window followed by one at `StartTimestamp + 65000` ms leaves
the published remaining at `max(D - 65, 0)`, regardless of how many
triggers fired in between. -/
theorem C1_wall_clock_remaining (s : TimerState) (D t0 now start : Int)
    (l : List Trigger) (tr : Trigger) :
    (s.isRunning = true → s.startTime = some start → start ≠ 0 →
      (updateTimer now s).time
        = max (s.totalDuration - (elapsedSecs now start + s.pausedTime)) 0 ∧
      (workerOnMessage now s).time
        = max (s.totalDuration - (elapsedSecs now start + s.pausedTime)) 0) ∧
    (s.isRunning = false → s.startTime = none → s.pausedTime = 0 → s.time = D →
      FreshRun D t0 (startPauseTimer t0 s)) ∧
    (0 < t0 → FreshRun D t0 s →
      (∀ x ∈ l, t0 ≤ triggerTime x ∧ triggerTime x ≤ t0 + 65000) →
      triggerTime tr = t0 + 65000 →
      (applyTrigger tr (applyTriggers l s)).time = max (D - 65) 0) := by
  refine ⟨?_, ?_, ?_⟩
  · intro hr hst h0
    exact trigger_publishes s now start hr hst h0
  · intro hr hst hp htime
    unfold startPauseTimer runSyncEffect
    rw [hr]
    simp only [Bool.not_false, if_pos]
    rw [hst]
    exact ⟨rfl, rfl, htime, hp⟩
  · intro h0 hfresh hb htr
    exact final_trigger h0 tr _ htr (triggers_inv h0 l hb s (Or.inl hfresh))

/-- Witness for C1: a 100-second run started at t=1000 ms, polled twice
in between, publishes 35 at t=66000 ms. -/
theorem C1_wall_clock_remaining_witness :
    (applyTrigger (Trigger.frame 66000)
      (applyTriggers [Trigger.frame 31000, Trigger.tick 45000]
        { initState with time := 100, isRunning := true,
                         totalDuration := 100, startTime := some 1000 })).time = 35 := by
  have h := (C1_wall_clock_remaining
    { initState with time := 100, isRunning := true,
                     totalDuration := 100, startTime := some 1000 }
    100 1000 0 0 [Trigger.frame 31000, Trigger.tick 45000]
    (Trigger.frame 66000)).2.2
    (by decide) ⟨rfl, rfl, rfl, rfl⟩ (by decide) (by decide)
  rw [h]
  decide



/-- The C2 scenario up to the pause: commit 2 hours (7200 s), start at
t=1000 ms, recompute at t=11000 ms (10 s elapsed, publishing 7190), and
pause at that same instant. -/
def c2PausedState : TimerState :=
  startPauseTimer 11000 (updateTimer 11000
    (startPauseTimer 1000 (setTimer { initState with inputHours := handleInputChange "2" "" })))

/-- The C2 scenario after resuming at t=50000 ms. -/
def c2ResumedState : TimerState :=
  startPauseTimer 50000 c2PausedState

/-- The C2 scenario after one recompute 5 s after the resume. -/
def c2FinalState : TimerState :=
  updateTimer 55000 c2ResumedState

/-- Claim C2 fails on the code: the scenario it prescribes, evaluated
step by step.  Commit 2 hours (7200 s), start at t=1 s, recompute and
pause at t=11 s (10 s elapsed: AccumulatedPause becomes 10 and the start
timestamp is cleared, as the claim says), resume at t=50 s, recompute 5 s
later.  On resume the code overwrites TotalDuration with the published
remaining 7190 while keeping AccumulatedPause = 10, so the next recompute
publishes 7175 = 7200 - 25, not the claimed 7200 - 15: the first
segment's 10 seconds are double-counted. -/
theorem C2_resume_overwrites_total :
    c2PausedState.pausedTime = 10 ∧ c2PausedState.startTime = none ∧
    c2PausedState.time = 7190 ∧ c2PausedState.totalDuration = 7200 ∧
    c2ResumedState.totalDuration = 7190 ∧ c2ResumedState.startTime = some 50000 ∧
    c2ResumedState.pausedTime = 10 ∧
    c2FinalState.time = 7175 ∧ ¬c2FinalState.time = 7200 - 15 := by
  decide

lemma padStart2_two_digits : ∀ k : Nat, k < 100 →
    (padStart2 (toString (k : Int))).data
      = [Nat.digitChar (k / 10), Nat.digitChar (k % 10)] := by decide

lemma digitChar_props : ∀ d : Nat, d < 10 →
    isDigitChar (Nat.digitChar d) = true ∧ (Nat.digitChar d).toNat - 48 = d := by decide

lemma formatTime_data (n : Nat) (hn : n ≤ 359999) :
    (formatTime (n : Int)).data
      = [Nat.digitChar (n / 3600 / 10), Nat.digitChar (n / 3600 % 10), ':',
         Nat.digitChar (n % 3600 / 60 / 10), Nat.digitChar (n % 3600 / 60 % 10), ':',
         Nat.digitChar (n % 60 / 10), Nat.digitChar (n % 60 % 10)] := by
  have hH : (n : Int).fdiv 3600 = ((n / 3600 : Nat) : Int) := by
    rw [Int.fdiv_eq_ediv _ (by norm_num)]
    omega
  have hrem : jsRem (n : Int) 3600 = ((n % 3600 : Nat) : Int) := by
    unfold jsRem
    rw [if_neg (by omega)]
    omega
  have hM : (jsRem (n : Int) 3600).fdiv 60 = ((n % 3600 / 60 : Nat) : Int) := by
    rw [hrem, Int.fdiv_eq_ediv _ (by norm_num)]
    omega
  have hrem60 : jsRem (n : Int) 60 = ((n % 60 : Nat) : Int) := by
    unfold jsRem
    rw [if_neg (by omega)]
    omega
  unfold formatTime
  rw [hH, hM, hrem60]
  rw [String.data_append, String.data_append, String.data_append, String.data_append]
  rw [padStart2_two_digits (n / 3600) (by omega),
      padStart2_two_digits (n % 3600 / 60) (by omega),
      padStart2_two_digits (n % 60) (by omega)]
  rfl

/-- Claim C3: for every remaining value in [0, 359999], `formatTime`
produces a string matching `^\d\x7b2\x7d:\d\x7b2\x7d:\d\x7b2\x7d$` whose
fields are the zero-padded hour/minute/second components, and decoding
the three fields by `HH*3600 + MM*60 + SS` returns the original
integer. -/
theorem C3_format_roundtrip (n : Nat) (hn : n ≤ 359999) :
    matchesHHMMSS (formatTime (n : Int)) = true ∧
    decodeHMS (formatTime (n : Int)) = some n := by
  have hdata := formatTime_data n hn
  have hfmt : formatTime (n : Int) = String.mk
      [Nat.digitChar (n / 3600 / 10), Nat.digitChar (n / 3600 % 10), ':',
       Nat.digitChar (n % 3600 / 60 / 10), Nat.digitChar (n % 3600 / 60 % 10), ':',
       Nat.digitChar (n % 60 / 10), Nat.digitChar (n % 60 % 10)] := by
    cases hfd : formatTime (n : Int) with
    | mk d => rw [hfd] at hdata; simp_all
  obtain ⟨d1, e1⟩ := digitChar_props (n / 3600 / 10) (by omega)
  obtain ⟨d2, e2⟩ := digitChar_props (n / 3600 % 10) (by omega)
  obtain ⟨d3, e3⟩ := digitChar_props (n % 3600 / 60 / 10) (by omega)
  obtain ⟨d4, e4⟩ := digitChar_props (n % 3600 / 60 % 10) (by omega)
  obtain ⟨d5, e5⟩ := digitChar_props (n % 60 / 10) (by omega)
  obtain ⟨d6, e6⟩ := digitChar_props (n % 60 % 10) (by omega)
  rw [hfmt]
  constructor
  · unfold matchesHHMMSS
    simp only [d1, d2, d3, d4, d5, d6]
    decide
  · unfold decodeHMS
    simp only [d1, d2, d3, d4, d5, d6]
    rw [if_pos (by decide)]
    rw [e1, e2, e3, e4, e5, e6]
    congr 1
    omega

/-- Witness for C3 at remaining = 5400. -/
theorem C3_format_roundtrip_witness :
    matchesHHMMSS (formatTime 5400) = true ∧ decodeHMS (formatTime 5400) = some 5400 :=
  C3_format_roundtrip 5400 (by omega)



/-- Counterexample to C7 as stated: seeding from the parameter
hours="x" (non-numeric) writes NaN — not 0 — into both RemainingSeconds
and TotalDuration, and hours="-1" seeds the negative value -3600; so a
non-numeric parameter is not treated as 0 and the seeded value is not
always non-negative. -/
theorem C7_nan_seed_counterexample :
    (loadFromQuery (some "x") none { time := some 0, totalDuration := some 0 }).time
      = none ∧
    (loadFromQuery (some "x") none { time := some 0, totalDuration := some 0 }).totalDuration
      = none ∧
    ¬(loadFromQuery (some "x") none { time := some 0, totalDuration := some 0 }).time
      = some 0 ∧
    (loadFromQuery (some "-1") none { time := some 0, totalDuration := some 0 }).time
      = some (-3600) := by
  decide

/-- Claim C7 amended: when both parameters are absent or empty no
seeding happens; when the parameters that are present are digit strings
the seed is `hours*3600 + minutes*60` (absent/empty ones contributing 0
through the `|| "0"` fallback) and is non-negative; but a parameter that
`parseInt` cannot parse seeds NaN into both cells, with no error
surfaced. -/
theorem C7_query_seed (s : QuerySeedState) (hs ms : String) :
    (loadFromQuery none none s = s) ∧
    (loadFromQuery (some "") (some "") s = s) ∧
    (hs ≠ "" → hs.data.all isDigitChar = true →
      (loadFromQuery (some hs) none s).time
          = some ((digitsVal hs.data : Int) * 3600) ∧
      (loadFromQuery (some hs) none s).totalDuration
          = (loadFromQuery (some hs) none s).time ∧
      (0 : Int) ≤ (digitsVal hs.data : Int) * 3600) ∧
    (hs ≠ "" → hs.data.all isDigitChar = true →
     ms ≠ "" → ms.data.all isDigitChar = true →
      (loadFromQuery (some hs) (some ms) s).time
          = some ((digitsVal hs.data : Int) * 3600 + (digitsVal ms.data : Int) * 60) ∧
      (loadFromQuery (some hs) (some ms) s).totalDuration
          = (loadFromQuery (some hs) (some ms) s).time ∧
      (0 : Int) ≤ (digitsVal hs.data : Int) * 3600 + (digitsVal ms.data : Int) * 60) ∧
    (hs ≠ "" → jsParseInt hs = none →
      (loadFromQuery (some hs) none s).time = none ∧
      (loadFromQuery (some hs) none s).totalDuration = none) := by
  refine ⟨rfl, rfl, ?_, ?_, ?_⟩
  · intro hne hdig
    unfold loadFromQuery
    rw [if_pos]
    · unfold queryParamOrZero
      dsimp only
      rw [if_neg hne]
      rw [jsParseInt_digits hs (string_data_ne_nil hne) hdig]
      refine ⟨?_, rfl, by positivity⟩
      show nanAdd (nanMul (some ((digitsVal hs.data : Int))) 3600)
          (nanMul (jsParseInt "0") 60) = _
      rw [show jsParseInt "0" = some 0 by decide]
      unfold nanAdd nanMul
      simp
    · simp only [truthyStrOpt, Bool.or_eq_true_iff]
      exact Or.inl (by simpa using hne)
  · intro hne hdig mne mdig
    unfold loadFromQuery
    rw [if_pos]
    · unfold queryParamOrZero
      dsimp only
      rw [if_neg hne, if_neg mne]
      rw [jsParseInt_digits hs (string_data_ne_nil hne) hdig,
          jsParseInt_digits ms (string_data_ne_nil mne) mdig]
      refine ⟨?_, rfl, by positivity⟩
      unfold nanAdd nanMul
      simp
    · simp only [truthyStrOpt, Bool.or_eq_true_iff]
      exact Or.inl (by simpa using hne)
  · intro hne hnan
    unfold loadFromQuery
    rw [if_pos]
    · unfold queryParamOrZero
      dsimp only
      rw [if_neg hne, hnan]
      unfold nanAdd nanMul
      exact ⟨rfl, rfl⟩
    · simp only [truthyStrOpt, Bool.or_eq_true_iff]
      exact Or.inl (by simpa using hne)

/-- Witness for C7 at hours="1", minutes="30". -/
theorem C7_query_seed_witness :
    (loadFromQuery (some "1") (some "30") { time := some 0, totalDuration := some 0 }).time
      = some 5400 := by
  have h := ((C7_query_seed { time := some 0, totalDuration := some 0 } "1" "30").2.2.2.1
    (by decide) (by decide) (by decide) (by decide)).1
  rw [h]
  decide

end NotionTimer
